import Mathlib

/-!
Shallow embedding of the Aura Cleaning landing-page scripts
(src/assets/js/calculator.js and the main UI script) and proofs of the
spec's claims about them.

JavaScript numbers appearing here are integers throughout; they are
modelled as Int (areas, prices) or Nat (element counts).  JS null is
modelled by Option.  A JS number is falsy exactly when it is 0 (or NaN,
which never arises here); a JS string is falsy exactly when it is empty.
-/

/-- One observable DOM action of a module initializer or handler: an
event-listener registration, a text write to a display element, a CSS
class toggle, an IntersectionObserver registration, or the slider track
gradient write (whose CSS string is a float percentage computed from the
area; we record the area it is computed from). -/
inductive Effect
  | addListener (target event : String)
  | write (target value : String)
  | addClass (target cls : String)
  | removeClass (target cls : String)
  | setSliderGradient (area : Int)
  | observe (target : String)
  deriving DecidableEq, Repr

namespace Calculator

/-- The three price zones of Calculator.zones. -/
inductive Zone
  | zone1
  | zone2
  | zone3
  deriving DecidableEq, Repr

/-- The two cleaning frequencies offered by the radio group. -/
inductive Frequency
  | single
  | weekly
  deriving DecidableEq, Repr

/-- One row of Calculator.prices: a single-visit price and a weekly price. -/
structure PriceEntry where
  single : Int
  weekly : Int
  deriving DecidableEq, Repr

/-- Calculator.prices: prices per zone. -/
def prices : Zone → PriceEntry
  | Zone.zone1 => { single := 9900, weekly := 8400 }
  | Zone.zone2 => { single := 14900, weekly := 12700 }
  | Zone.zone3 => { single := 21900, weekly := 18600 }

/-- Calculator.getZone: area ≤ 90 → zone1, area ≤ 150 → zone2, else zone3. -/
def getZone (area : Int) : Zone :=
  if area ≤ 90 then Zone.zone1
  else if area ≤ 150 then Zone.zone2
  else Zone.zone3

/-- Calculator.getPrice: resolve the zone, then read the frequency field. -/
def getPrice (area : Int) (frequency : Frequency) : Int :=
  let zone := getZone area
  match frequency with
  | Frequency.single => (prices zone).single
  | Frequency.weekly => (prices zone).weekly

/-- Calculator.getMonthlyPrice: null for a falsy price, price times 4 for
weekly, the price unchanged for single. -/
def getMonthlyPrice (price : Int) (frequency : Frequency) : Option Int :=
  if price = 0 then none
  else match frequency with
    | Frequency.weekly => some (price * 4)
    | Frequency.single => some price

/-- Calculator.getSavings: 0 for single; otherwise the difference of the
single and current prices, with the falsy guard of the source
(`if (!singlePrice || !currentPrice) return 0`). -/
def getSavings (area : Int) (frequency : Frequency) : Int :=
  match frequency with
  | Frequency.single => 0
  | Frequency.weekly =>
    let singlePrice := getPrice area Frequency.single
    let currentPrice := getPrice area Frequency.weekly
    if singlePrice = 0 ∨ currentPrice = 0 then 0
    else singlePrice - currentPrice

/-- Calculator.areaHints, in the order JS iterates the integer-keyed
object (ascending keys). -/
def areaHints : List (Nat × String) :=
  [(50, "1-2 комнатная • Приедет 1 клинер"),
   (75, "2-комнатная • Приедет 1 клинер"),
   (90, "2-3 комнатная • Приедет 1 клинер"),
   (100, "3-комнатная • Приедут 2 клинера"),
   (130, "3-4 комнатная • Приедут 2 клинера"),
   (150, "4-комнатная • Приедут 2 клинера"),
   (170, "Большая квартира • Приедут 3 клинера"),
   (200, "Пентхаус • Приедут 3 клинера")]

/-- Calculator.getAreaHint: scan the entries from the last to the first,
return the first entry with key ≤ area, and fall back to the label of the
first entry (the source indexes hints[0][1]; the empty-list default is
unreachable because areaHints is a non-empty literal). -/
def getAreaHint (area : Int) : String :=
  match areaHints.reverse.find? (fun h => decide ((h.1 : Int) ≤ area)) with
  | some h => h.2
  | none => (areaHints.headD (0, "")).2

/-- From the spec words for areaHint: the label of the greatest table key
that is ≤ area; below all keys, the smallest key's label.  The keys of
areaHints are strictly increasing, so the last entry of the filtered list
carries the greatest such key. -/
def areaHintSpec (area : Int) : String :=
  match (areaHints.filter (fun h => decide ((h.1 : Int) ≤ area))).getLast? with
  | some h => h.2
  | none => (areaHints.headD (0, "")).2

/-- Decimal digits of m, padded on the left with zeros to width 3; used
for the non-leading groups of the ru-RU thousands formatting. -/
def pad3 (m : Nat) : String :=
  (if m < 10 then "00" else if m < 100 then "0" else "") ++ toString m

/-- Model of Intl.NumberFormat ru-RU applied to a natural number: digits
in groups of three from the right, separated by the no-break space
U+00A0. -/
def groupedRu (n : Nat) : String :=
  if h : n < 1000 then toString n
  else groupedRu (n / 1000) ++ "\u00A0" ++ pad3 (n % 1000)
termination_by n
decreasing_by omega

/-- Model of Intl.NumberFormat ru-RU applied to an integer. -/
def formatRu (n : Int) : String :=
  (if n < 0 then "-" else "") ++ groupedRu n.natAbs

/-- Calculator.formatPrice: the literal fallback for null or zero,
otherwise the grouped number followed by the currency suffix. -/
def formatPrice (price : Option Int) : String :=
  match price with
  | none => "По запросу"
  | some p => if p = 0 then "По запросу" else formatRu p ++ "₽"

/-- Calculator.frequencyLabels. -/
def frequencyLabels : Frequency → String
  | Frequency.single => "разовая"
  | Frequency.weekly => "регулярно раз в неделю"


/-- The DOM state Calculator.init reads: the slider element with its
current value (none when the page has no area-slider element), the
checked frequency radio, and which optional display elements exist. -/
structure Page where
  sliderValue : Option Int
  checkedFrequency : Frequency
  numFrequencyOptions : Nat
  hasPriceSingleEl : Bool
  hasPriceWeeklyEl : Bool
  hasMonthlyWeeklyEl : Bool
  hasSavingWeeklyEl : Bool
  deriving Repr

/-- Calculator.update: the writes done for the current area and checked
frequency (area display, hint, slider gradient, summary, price, monthly
line). -/
def update (p : Page) (area : Int) : List Effect :=
  let frequency := p.checkedFrequency
  let price := getPrice area frequency
  let monthlyPrice := getMonthlyPrice price frequency
  [Effect.write "area-value" (toString area),
   Effect.write "area-hint" (getAreaHint area),
   Effect.setSliderGradient area,
   Effect.write "result-summary"
     (toString area ++ " кв.м, " ++ frequencyLabels frequency),
   Effect.write "result-price" (formatPrice (some price)),
   (match frequency with
    | Frequency.single => Effect.write "result-monthly" ""
    | Frequency.weekly =>
      if price ≠ 0 then
        Effect.write "result-monthly" (formatPrice monthlyPrice ++ " раз в месяц")
      else
        Effect.write "result-monthly" "Свяжитесь с нами для расчета")]

/-- Calculator.updateOptionPrices: the writes into the per-option price
readouts, each guarded by the presence of its element. -/
def updateOptionPrices (p : Page) (area : Int) : List Effect :=
  let singlePrice := getPrice area Frequency.single
  let weeklyPrice := getPrice area Frequency.weekly
  (if p.hasPriceSingleEl then
    [Effect.write "price-single" (formatPrice (some singlePrice))]
   else [])
  ++ (if p.hasPriceWeeklyEl then
    [Effect.write "price-weekly" (formatPrice (some weeklyPrice))]
   else [])
  ++ (if p.hasMonthlyWeeklyEl && (weeklyPrice != 0) then
    [Effect.write "monthly-weekly"
      ("(" ++ formatPrice (some (weeklyPrice * 4)) ++ " раз в месяц)")]
   else [])
  ++ (if p.hasSavingWeeklyEl then
    [Effect.write "saving-weekly"
      (let saving := getSavings area Frequency.weekly
       if saving > 0 then
         "💰 Экономия " ++ formatPrice (some saving) ++ " на каждой"
       else "")]
   else [])

/-- Calculator.init: looks the elements up, returns with no effect when
the slider is absent, otherwise attaches the listeners (slider input for
update, one change listener per frequency radio, slider input again for
updateOptionPrices) and runs the two initial updates. -/
def init (p : Page) : List Effect :=
  match p.sliderValue with
  | none => []
  | some area =>
    [Effect.addListener "area-slider" "input"]
    ++ List.replicate p.numFrequencyOptions
         (Effect.addListener "frequency-option" "change")
    ++ [Effect.addListener "area-slider" "input"]
    ++ update p area
    ++ updateOptionPrices p area

end Calculator

namespace Header

/-- Header.scrollThreshold. -/
def scrollThreshold : Int := 50

/-- Header.onScroll: toggle the scrolled class on the threshold. -/
def onScroll (scrollY : Int) : List Effect :=
  if scrollY > scrollThreshold then
    [Effect.addClass "header" "header--scrolled"]
  else
    [Effect.removeClass "header" "header--scrolled"]

/-- Header.init: silent no-op when the .header element is absent,
otherwise a scroll listener plus the initial onScroll check. -/
def init (hasHeader : Bool) (scrollY : Int) : List Effect :=
  if hasHeader then Effect.addListener "window" "scroll" :: onScroll scrollY
  else []

end Header

namespace Accordion

/-- One .accordion__item element: whether it has a header and a content
child, and the content scroll height used for the expanded max-height. -/
structure Item where
  hasHeader : Bool
  hasContent : Bool
  scrollHeight : Int
  deriving Repr

/-- Accordion.init: per item with both header and content a click
listener; then the first item on the page is opened by default. -/
def init (items : List Item) : List Effect :=
  (items.flatMap fun it =>
    if it.hasHeader && it.hasContent then
      [Effect.addListener "accordion-header" "click"]
    else [])
  ++ (match items with
      | [] => []
      | first :: _ =>
        Effect.addClass "accordion-item-first" "active" ::
          (if first.hasContent then
            [Effect.write "accordion-content-first-maxHeight"
              (toString first.scrollHeight ++ "px")]
           else []))

end Accordion

namespace Modal

/-- What the modal body shows: the lead form, or the success message that
showSuccess swaps in. -/
inductive View
  | formView
  | successView
  deriving DecidableEq, Repr

/-- The modal state the submit handler can touch: the active class
(open/closed), the body view, the alerts raised so far, and whether the
delayed close/reload chain has been scheduled. -/
structure State where
  isOpen : Bool
  view : View
  alerts : List String
  closeScheduled : Bool
  deriving DecidableEq, Repr

/-- JS string falsiness of a form field: a missing field (undefined) or
the empty string. -/
def jsFalsy : Option String → Bool
  | none => true
  | some s => s.isEmpty

/-- Modal.showSuccess: replace the form with the success message and
schedule the delayed close (and later reload). -/
def showSuccess (st : State) : State :=
  { st with view := View.successView, closeScheduled := true }

/-- Modal.handleSubmit: validate name and phone; when either is falsy,
alert and return; otherwise show the success state. -/
def handleSubmit (st : State) (name phone : Option String) : State :=
  if jsFalsy name || jsFalsy phone then
    { st with alerts := st.alerts ++ ["Пожалуйста, заполните все поля"] }
  else showSuccess st

/-- Modal.init: silent no-op when the modal element is absent, otherwise
the open/close trigger listeners, backdrop and Escape listeners, and the
submit listener when the form exists. -/
def init (hasModal hasForm : Bool) (openTriggers closeTriggers : Nat) :
    List Effect :=
  if hasModal then
    List.replicate openTriggers (Effect.addListener "modal-open-trigger" "click")
    ++ List.replicate closeTriggers
         (Effect.addListener "modal-close-trigger" "click")
    ++ [Effect.addListener "modal" "click",
        Effect.addListener "document" "keydown"]
    ++ (if hasForm then [Effect.addListener "lead-form" "submit"] else [])
  else []

end Modal

namespace SmoothScroll

/-- SmoothScroll.init: one click listener per same-page anchor link; an
empty page gives no effect. -/
def init (anchorCount : Nat) : List Effect :=
  List.replicate anchorCount (Effect.addListener "anchor" "click")

end SmoothScroll

namespace Animations

/-- Animations.init: returns when no fade-in element exists, otherwise
observes each of them. -/
def init (fadeInCount : Nat) : List Effect :=
  if fadeInCount = 0 then []
  else List.replicate fadeInCount (Effect.observe "fade-in")

end Animations

namespace MobileMenu

/-- MobileMenu.init.  The source reads
nav.querySelectorAll before its null guard, so when the
.header__nav element is absent the initializer throws a TypeError
(modelled as none) instead of reaching the
guard; with nav present but the menu button absent the guard returns
silently. -/
def init (hasMenuBtn hasNav : Bool) (navLinkCount : Nat) :
    Option (List Effect) :=
  if !hasNav then none
  else some (
    if !hasMenuBtn then []
    else
      Effect.addListener "header__menu-btn" "click" ::
        List.replicate navLinkCount
          (Effect.addListener "header__nav-link" "click"))

end MobileMenu

/-- C1: for every integer area in [50,90] getZone returns zone1, in
[91,150] zone2, and in [151,250] zone3. -/
theorem classifyZone_partitions (area : Int) :
    (50 ≤ area ∧ area ≤ 90 → Calculator.getZone area = Calculator.Zone.zone1) ∧
    (91 ≤ area ∧ area ≤ 150 → Calculator.getZone area = Calculator.Zone.zone2) ∧
    (151 ≤ area ∧ area ≤ 250 → Calculator.getZone area = Calculator.Zone.zone3) := by
  unfold Calculator.getZone
  refine ⟨fun h => ?_, fun h => ?_, fun h => ?_⟩ <;>
    split_ifs <;> first | rfl | omega

/-- Witness for C1 at areas 70, 100 and 200. -/
theorem classifyZone_partitions_witness :
    Calculator.getZone 70 = Calculator.Zone.zone1 ∧
    Calculator.getZone 100 = Calculator.Zone.zone2 ∧
    Calculator.getZone 200 = Calculator.Zone.zone3 :=
  ⟨(classifyZone_partitions 70).1 (by omega),
   (classifyZone_partitions 100).2.1 (by omega),
   (classifyZone_partitions 200).2.2 (by omega)⟩

/-- C2: on the supported range [50,250] the weekly price never exceeds
the single price. -/
theorem weekly_le_single (area : Int) (h : 50 ≤ area ∧ area ≤ 250) :
    Calculator.getPrice area Calculator.Frequency.weekly ≤
      Calculator.getPrice area Calculator.Frequency.single := by
  cases hz : Calculator.getZone area <;>
    simp [Calculator.getPrice, Calculator.prices, hz]

/-- Witness for C2 at area 100. -/
theorem weekly_le_single_witness :
    Calculator.getPrice 100 Calculator.Frequency.weekly ≤
      Calculator.getPrice 100 Calculator.Frequency.single :=
  weekly_le_single 100 (by omega)

/-- C3: on [50,250], savings for single is 0 and savings for weekly is
the single price minus the weekly price. -/
theorem savings_spec (area : Int) (h : 50 ≤ area ∧ area ≤ 250) :
    Calculator.getSavings area Calculator.Frequency.single = 0 ∧
    Calculator.getSavings area Calculator.Frequency.weekly =
      Calculator.getPrice area Calculator.Frequency.single -
        Calculator.getPrice area Calculator.Frequency.weekly := by
  refine ⟨rfl, ?_⟩
  cases hz : Calculator.getZone area <;>
    simp [Calculator.getSavings, Calculator.getPrice, Calculator.prices, hz]

/-- Witness for C3 at area 100. -/
theorem savings_spec_witness :
    Calculator.getSavings 100 Calculator.Frequency.single = 0 ∧
    Calculator.getSavings 100 Calculator.Frequency.weekly =
      Calculator.getPrice 100 Calculator.Frequency.single -
        Calculator.getPrice 100 Calculator.Frequency.weekly :=
  savings_spec 100 (by omega)

/-- C4 counterexample: at the falsy price 0, getMonthlyPrice returns
null, not 0 as the unrestricted §8 reading would require. -/
theorem monthlyEquivalent_zero_counterexample :
    Calculator.getMonthlyPrice 0 Calculator.Frequency.single ≠ some 0 ∧
    Calculator.getMonthlyPrice 0 Calculator.Frequency.weekly ≠ some 0 := by
  refine ⟨?_, ?_⟩ <;> simp [Calculator.getMonthlyPrice]

/-- C4 amended: for every nonzero integer price, weekly gives price × 4
and single gives the price back; a falsy (zero) price gives null. -/
theorem monthlyEquivalent_spec (price : Int) (h : price ≠ 0) :
    Calculator.getMonthlyPrice price Calculator.Frequency.weekly =
      some (price * 4) ∧
    Calculator.getMonthlyPrice price Calculator.Frequency.single =
      some price := by
  simp [Calculator.getMonthlyPrice, h]

/-- Witness for C4 at price 9900. -/
theorem monthlyEquivalent_spec_witness :
    Calculator.getMonthlyPrice 9900 Calculator.Frequency.weekly =
      some (9900 * 4) ∧
    Calculator.getMonthlyPrice 9900 Calculator.Frequency.single =
      some 9900 :=
  monthlyEquivalent_spec 9900 (by omega)

/-- C5: getAreaHint agrees everywhere with the spec description (greatest
table key ≤ area, smallest key's label below all keys), and on the quoted
inputs 49, 50, 200 and 201 it yields the key-50 and key-200 labels. -/
theorem areaHint_greatest_key :
    (∀ area : Int, Calculator.getAreaHint area = Calculator.areaHintSpec area) ∧
    Calculator.getAreaHint 49 = "1-2 комнатная • Приедет 1 клинер" ∧
    Calculator.getAreaHint 50 = "1-2 комнатная • Приедет 1 клинер" ∧
    Calculator.getAreaHint 200 = "Пентхаус • Приедут 3 клинера" ∧
    Calculator.getAreaHint 201 = "Пентхаус • Приедут 3 клинера" := by
  refine ⟨fun area => ?_, rfl, rfl, rfl, rfl⟩
  unfold Calculator.getAreaHint Calculator.areaHintSpec
  rw [List.filter_getLast?]

/-- C6: formatPrice maps null and 0 to the fallback string, any positive
price to its ru-RU grouped digits plus the currency sign, and 9900 to the
concrete grouped string with the no-break space separator. -/
theorem formatPrice_spec :
    Calculator.formatPrice none = "По запросу" ∧
    Calculator.formatPrice (some 0) = "По запросу" ∧
    (∀ p : Int, 0 < p →
      Calculator.formatPrice (some p) = Calculator.formatRu p ++ "₽") ∧
    Calculator.formatPrice (some 9900) = "9\u00A0900₽" := by
  refine ⟨rfl, rfl, fun p hp => ?_, ?_⟩
  · simp [Calculator.formatPrice, show p ≠ 0 from by omega]
  · have h9 : Calculator.groupedRu 9 = "9" := by
      unfold Calculator.groupedRu; norm_num; rfl
    have h9900 : Calculator.groupedRu 9900 = "9\u00A0900" := by
      unfold Calculator.groupedRu
      norm_num [Calculator.pad3, h9]
      decide
    simp [Calculator.formatPrice, Calculator.formatRu, h9900]

/-- Witness for C6 at price 5. -/
theorem formatPrice_spec_witness :
    Calculator.formatPrice (some 5) = Calculator.formatRu 5 ++ "₽" :=
  formatPrice_spec.2.2.1 5 (by omega)

/-- C7: a submit with a blank (falsy) name or phone only raises the
alert: the body still shows the form (no success message), the
open/closed state is unchanged, and no close is scheduled. -/
theorem modal_blank_submit_blocked (st : Modal.State)
    (name phone : Option String)
    (h : Modal.jsFalsy name = true ∨ Modal.jsFalsy phone = true) :
    Modal.handleSubmit st name phone =
      { st with alerts := st.alerts ++ ["Пожалуйста, заполните все поля"] } ∧
    (Modal.handleSubmit st name phone).view = st.view ∧
    (Modal.handleSubmit st name phone).isOpen = st.isOpen ∧
    (Modal.handleSubmit st name phone).closeScheduled = st.closeScheduled := by
  have hb : (Modal.jsFalsy name || Modal.jsFalsy phone) = true := by
    rcases h with h | h <;> simp [h]
  refine ⟨?_, ?_, ?_, ?_⟩ <;> simp [Modal.handleSubmit, hb]

/-- Witness for C7: an open modal, a filled name and a blank phone. -/
theorem modal_blank_submit_blocked_witness :
    Modal.jsFalsy (some "") = true ∧
    Modal.handleSubmit ⟨true, Modal.View.formView, [], false⟩
        (some "Иван") (some "") =
      ⟨true, Modal.View.formView, ["Пожалуйста, заполните все поля"], false⟩ :=
  ⟨rfl,
   (modal_blank_submit_blocked ⟨true, Modal.View.formView, [], false⟩
     (some "Иван") (some "") (Or.inr rfl)).1⟩

/-- C8: with their markup absent, Header, Accordion, Modal, SmoothScroll
and Animations initialize as silent no-ops, but MobileMenu.init throws
(none): the nav element is dereferenced before its null guard, so the
claim fails for MobileMenu. -/
theorem missing_markup_silent_noop_violated_by_mobileMenu :
    Header.init false 0 = [] ∧
    Accordion.init [] = [] ∧
    Modal.init false false 0 0 = [] ∧
    SmoothScroll.init 0 = [] ∧
    Animations.init 0 = [] ∧
    MobileMenu.init true false 0 = none :=
  ⟨rfl, rfl, rfl, rfl, rfl, rfl⟩

/-- C9: when the area-slider element is absent, Calculator.init attaches
no listener and writes no display element. -/
theorem calculator_init_noop_without_slider (p : Calculator.Page)
    (h : p.sliderValue = none) : Calculator.init p = [] := by
  simp [Calculator.init, h]

/-- Witness for C9 on a concrete sliderless page. -/
theorem calculator_init_noop_without_slider_witness :
    Calculator.init
      ⟨none, Calculator.Frequency.single, 0, false, false, false, false⟩ = [] :=
  calculator_init_noop_without_slider
    ⟨none, Calculator.Frequency.single, 0, false, false, false, false⟩ rfl

/-- C10: getZone and getPrice are total over all integer areas: the zone
is always one of the three, area ≤ 90 gives zone1 and area > 150 gives
zone3, and the price is always a positive entry of the price table. -/
theorem getZone_getPrice_total (area : Int)
    (frequency : Calculator.Frequency) :
    (Calculator.getZone area = Calculator.Zone.zone1 ∨
     Calculator.getZone area = Calculator.Zone.zone2 ∨
     Calculator.getZone area = Calculator.Zone.zone3) ∧
    (area ≤ 90 → Calculator.getZone area = Calculator.Zone.zone1) ∧
    (150 < area → Calculator.getZone area = Calculator.Zone.zone3) ∧
    0 < Calculator.getPrice area frequency ∧
    Calculator.getPrice area frequency ∈
      ([9900, 8400, 14900, 12700, 21900, 18600] : List Int) := by
  refine ⟨?_, fun h => ?_, fun h => ?_, ?_, ?_⟩
  · cases h : Calculator.getZone area <;> simp
  · unfold Calculator.getZone
    split_ifs <;> first | rfl | omega
  · unfold Calculator.getZone
    split_ifs <;> first | rfl | omega
  · cases hz : Calculator.getZone area <;> cases frequency <;>
      simp [Calculator.getPrice, Calculator.prices, hz]
  · cases hz : Calculator.getZone area <;> cases frequency <;>
      simp [Calculator.getPrice, Calculator.prices, hz]

/-- Witness for C10 at the out-of-range areas -7 and 999. -/
theorem getZone_getPrice_total_witness :
    Calculator.getZone (-7) = Calculator.Zone.zone1 ∧
    Calculator.getZone 999 = Calculator.Zone.zone3 ∧
    0 < Calculator.getPrice 999 Calculator.Frequency.weekly :=
  ⟨(getZone_getPrice_total (-7) Calculator.Frequency.single).2.1 (by omega),
   (getZone_getPrice_total 999 Calculator.Frequency.weekly).2.2.1 (by omega),
   (getZone_getPrice_total 999 Calculator.Frequency.weekly).2.2.2.1⟩
